import Mathlib

/-!
Verification of the PEP client model marshaller and obligation model
(argus-pep-api-c: src/pep/io.c, src/pep/obligation.c, src/cli/main.c).

The hessian object layer (src/hessian, not under src/ here) is embedded as
the inductive type Hessian below; the PEP object model entities
(src/pep/*.c model files other than obligation.c are not under src/) are
embedded as plain structures with the creation defaults and setter
behaviour the specification gives for the model API.
-/

/-- Modelled from the spec: a hessian (TagFmt) value from src/hessian
(not under src/): null, 32-bit integer, string, ordered list, and a map
with an optional type header and an ordered pair list. -/
inductive Hessian where
  | null : Hessian
  | integer : Int → Hessian
  | string : String → Hessian
  | list : List Hessian → Hessian
  | map : Option String → List (Hessian × Hessian) → Hessian

/-- Modelled from the spec: class tag of a Request map, from pep/io.h
(not under src/); an opaque byte-exact string. -/
def PEP_REQUEST_CLASSNAME : String := "xacml.ctx.Request"

/-- Modelled from the spec: class tag of a Subject map, from pep/io.h. -/
def PEP_SUBJECT_CLASSNAME : String := "xacml.ctx.Subject"

/-- Modelled from the spec: class tag of a Resource map, from pep/io.h. -/
def PEP_RESOURCE_CLASSNAME : String := "xacml.ctx.Resource"

/-- Modelled from the spec: class tag of an Action map, from pep/io.h. -/
def PEP_ACTION_CLASSNAME : String := "xacml.ctx.Action"

/-- Modelled from the spec: class tag of an Environment map, from pep/io.h. -/
def PEP_ENVIRONMENT_CLASSNAME : String := "xacml.ctx.Environment"

/-- Modelled from the spec: class tag of an Attribute map, from pep/io.h. -/
def PEP_ATTRIBUTE_CLASSNAME : String := "xacml.ctx.Attribute"

/-- Modelled from the spec: class tag of a Response map, from pep/io.h. -/
def PEP_RESPONSE_CLASSNAME : String := "xacml.ctx.Response"

/-- Modelled from the spec: class tag of a Result map, from pep/io.h. -/
def PEP_RESULT_CLASSNAME : String := "xacml.ctx.Result"

/-- Modelled from the spec: class tag of a Status map, from pep/io.h. -/
def PEP_STATUS_CLASSNAME : String := "xacml.ctx.Status"

/-- Modelled from the spec: class tag of a StatusCode map, from pep/io.h. -/
def PEP_STATUS_CODE_CLASSNAME : String := "xacml.ctx.StatusCode"

/-- Modelled from the spec: class tag of an Obligation map, from pep/io.h. -/
def PEP_OBLIGATION_CLASSNAME : String := "xacml.policy.Obligation"

/-- Modelled from the spec: class tag of an AttributeAssignment map. -/
def PEP_ATTRIBUTEASSIGNMENT_CLASSNAME : String := "xacml.policy.AttributeAssignment"

/-- Modelled from the spec: map key names from pep/io.h (not under src/). -/
def PEP_REQUEST_SUBJECTS : String := "subjects"

/-- Modelled from the spec: map key name from pep/io.h. -/
def PEP_REQUEST_RESOURCES : String := "resources"

/-- Modelled from the spec: map key name from pep/io.h. -/
def PEP_REQUEST_ACTION : String := "action"

/-- Modelled from the spec: map key name from pep/io.h. -/
def PEP_REQUEST_ENVIRONMENT : String := "environment"

/-- Modelled from the spec: map key name from pep/io.h. -/
def PEP_SUBJECT_CATEGORY : String := "category"

/-- Modelled from the spec: map key name from pep/io.h. -/
def PEP_SUBJECT_ATTRIBUTES : String := "attributes"

/-- Modelled from the spec: map key name from pep/io.h. -/
def PEP_RESOURCE_CONTENT : String := "content"

/-- Modelled from the spec: map key name from pep/io.h. -/
def PEP_RESOURCE_ATTRIBUTES : String := "attributes"

/-- Modelled from the spec: map key name from pep/io.h. -/
def PEP_ACTION_ATTRIBUTES : String := "attributes"

/-- Modelled from the spec: map key name from pep/io.h. -/
def PEP_ENVIRONMENT_ATTRIBUTES : String := "attributes"

/-- Modelled from the spec: map key name from pep/io.h. -/
def PEP_ATTRIBUTE_ID : String := "id"

/-- Modelled from the spec: map key name from pep/io.h. -/
def PEP_ATTRIBUTE_DATATYPE : String := "dataType"

/-- Modelled from the spec: map key name from pep/io.h. -/
def PEP_ATTRIBUTE_ISSUER : String := "issuer"

/-- Modelled from the spec: map key name from pep/io.h. -/
def PEP_ATTRIBUTE_VALUES : String := "values"

/-- Modelled from the spec: map key name from pep/io.h. -/
def PEP_RESPONSE_REQUEST : String := "request"

/-- Modelled from the spec: map key name from pep/io.h. -/
def PEP_RESPONSE_RESULTS : String := "results"

/-- Modelled from the spec: map key name from pep/io.h. -/
def PEP_RESULT_DECISION : String := "decision"

/-- Modelled from the spec: map key name from pep/io.h. -/
def PEP_RESULT_RESOURCEID : String := "resourceId"

/-- Modelled from the spec: map key name from pep/io.h. -/
def PEP_RESULT_STATUS : String := "status"

/-- Modelled from the spec: map key name from pep/io.h. -/
def PEP_RESULT_OBLIGATIONS : String := "obligations"

/-- Modelled from the spec: map key name from pep/io.h. -/
def PEP_STATUS_MESSAGE : String := "message"

/-- Modelled from the spec: map key name from pep/io.h. -/
def PEP_STATUS_CODE : String := "code"

/-- Modelled from the spec: map key name from pep/io.h. -/
def PEP_STATUS_CODE_CODE : String := "code"

/-- Modelled from the spec: map key name from pep/io.h. -/
def PEP_STATUS_CODE_SUBCODE : String := "subcode"

/-- Modelled from the spec: map key name from pep/io.h. -/
def PEP_OBLIGATION_ID : String := "id"

/-- Modelled from the spec: map key name from pep/io.h. -/
def PEP_OBLIGATION_FULFILLON : String := "fulfillOn"

/-- Modelled from the spec: map key name from pep/io.h. -/
def PEP_OBLIGATION_ASSIGNMENTS : String := "attributeAssignments"

/-- Modelled from the spec: map key name from pep/io.h. -/
def PEP_ATTRIBUTEASSIGNMENT_ID : String := "id"

/-- Modelled from the spec: map key name from pep/io.h. -/
def PEP_ATTRIBUTEASSIGNMENT_VALUES : String := "values"

/-- Modelled from the spec: success return code of the model API
(pep/model.h, not under src/). -/
def PEP_MODEL_OK : Int := 0

/-- Modelled from the spec: the single negative error sentinel of the
model API (pep/model.h, not under src/). -/
def PEP_MODEL_ERROR : Int := -1

/-- Modelled from the spec: fulfillOn value Deny = 0 (pep/model.h). -/
def PEP_FULFILLON_DENY : Int := 0

/-- Modelled from the spec: fulfillOn value Permit = 1 (pep/model.h). -/
def PEP_FULFILLON_PERMIT : Int := 1

/-- Modelled from the spec: the pep_attribute_t model entity
(src/pep/attribute.c, not under src/): mandatory id (a NULL pointer is
the unset state), optional datatype and issuer, ordered value strings. -/
structure PepAttribute where
  id : Option String
  datatype : Option String
  issuer : Option String
  values : List String
deriving DecidableEq

/-- Modelled from the spec: the pep_subject_t model entity: optional
category and ordered attributes. -/
structure PepSubject where
  category : Option String
  attributes : List PepAttribute
deriving DecidableEq

/-- Modelled from the spec: the pep_resource_t model entity: optional
content and ordered attributes. -/
structure PepResource where
  content : Option String
  attributes : List PepAttribute
deriving DecidableEq

/-- Modelled from the spec: the pep_action_t model entity. -/
structure PepAction where
  attributes : List PepAttribute
deriving DecidableEq

/-- Modelled from the spec: the pep_environment_t model entity. -/
structure PepEnvironment where
  attributes : List PepAttribute
deriving DecidableEq

/-- Modelled from the spec: the pep_request_t model entity: ordered
subjects and resources, at most one action and one environment. -/
structure PepRequest where
  subjects : List PepSubject
  resources : List PepResource
  action : Option PepAction
  environment : Option PepEnvironment
deriving DecidableEq

/-- Modelled from the spec: the pep_attribute_assignment_t model entity. -/
structure PepAttributeAssignment where
  id : Option String
  values : List String
deriving DecidableEq

/-- The pep_obligation_t entity (struct pep_obligation in
src/pep/obligation.c): id, fulfillon and the assignments list. -/
structure PepObligation where
  id : Option String
  fulfillon : Int
  assignments : List PepAttributeAssignment
deriving DecidableEq

/-- Modelled from the spec: the pep_status_code_t model entity: a code
URI and an optional nested subcode. -/
inductive PepStatusCode where
  | mk (code : Option String) (subcode : Option PepStatusCode) : PepStatusCode

/-- Code field of a PepStatusCode. -/
def PepStatusCode.code : PepStatusCode → Option String
  | .mk c _ => c

/-- Subcode field of a PepStatusCode. -/
def PepStatusCode.subcode : PepStatusCode → Option PepStatusCode
  | .mk _ s => s

/-- Modelled from the spec: pep_status_code_setcode sets the code field
to an owned copy of the given string. -/
def pep_status_code_setcode (st : PepStatusCode) (c : String) : PepStatusCode :=
  .mk (some c) st.subcode

/-- Modelled from the spec: pep_status_code_setsubcode sets the subcode. -/
def pep_status_code_setsubcode (st : PepStatusCode) (sub : PepStatusCode) : PepStatusCode :=
  .mk st.code (some sub)

/-- Modelled from the spec: the pep_status_t model entity. -/
structure PepStatus where
  message : Option String
  code : Option PepStatusCode

/-- Modelled from the spec: the pep_result_t model entity. -/
structure PepResult where
  decision : Int
  resourceid : Option String
  status : Option PepStatus
  obligations : List PepObligation

/-- Modelled from the spec: the pep_response_t model entity. -/
structure PepResponse where
  request : Option PepRequest
  results : List PepResult

/-- pep_obligation_create from src/pep/obligation.c: a successfully
created obligation copies the id when the argument is non-null, starts
with an empty assignments list and fulfillon PEP_FULFILLON_DENY. -/
def pep_obligation_create (id : Option String) : PepObligation :=
  { id := id, fulfillon := PEP_FULFILLON_DENY, assignments := [] }

/-- pep_obligation_setid from src/pep/obligation.c. The allocOk flag is
the outcome of the calloc call for the id copy. A null obligation or a
null id is an error with no mutation; otherwise the previous id is
freed, the calloc result is assigned to the id field, and on allocation
failure the field is therefore left null while the error sentinel is
returned. -/
def pep_obligation_setid (allocOk : Bool) :
    Option PepObligation → Option String → Int × Option PepObligation
  | none, _ => (PEP_MODEL_ERROR, none)
  | some obl, none => (PEP_MODEL_ERROR, some obl)
  | some obl, some id =>
    if allocOk then (PEP_MODEL_OK, some { obl with id := some id })
    else (PEP_MODEL_ERROR, some { obl with id := none })

/-- pep_obligation_setfulfillon from src/pep/obligation.c: only
PEP_FULFILLON_DENY and PEP_FULFILLON_PERMIT are accepted; any other
value returns the error sentinel and leaves the field untouched. -/
def pep_obligation_setfulfillon :
    Option PepObligation → Int → Int × Option PepObligation
  | none, _ => (PEP_MODEL_ERROR, none)
  | some obl, v =>
    if v = PEP_FULFILLON_DENY ∨ v = PEP_FULFILLON_PERMIT then
      (PEP_MODEL_OK, some { obl with fulfillon := v })
    else (PEP_MODEL_ERROR, some obl)

/-- pep_obligation_addattributeassignment from src/pep/obligation.c:
appends the assignment; errors only on null arguments. -/
def pep_obligation_addattributeassignment :
    Option PepObligation → Option PepAttributeAssignment → Int × Option PepObligation
  | none, _ => (PEP_MODEL_ERROR, none)
  | some obl, none => (PEP_MODEL_ERROR, some obl)
  | some obl, some a => (PEP_MODEL_OK, some { obl with assignments := obl.assignments ++ [a] })

/-- Modelled from the spec: pep_result_setdecision (src/pep/result.c,
not under src/) accepts only the four decision values Deny = 0,
Permit = 1, Indeterminate = 2, NotApplicable = 3. -/
def pep_result_setdecision (r : PepResult) (d : Int) : Option PepResult :=
  if d = 0 ∨ d = 1 ∨ d = 2 ∨ d = 3 then some { r with decision := d } else none

/-- Marshals each element of a list in order, as the per-element loops
of the marshal functions in src/pep/io.c do, failing as soon as one
element fails. -/
def marshalList {α : Type} (f : α → Option Hessian) : List α → Option (List Hessian)
  | [] => some []
  | a :: rest =>
    match f a with
    | some h => (marshalList f rest).map (fun hs => h :: hs)
    | none => none

/-- Reads a list of hessian strings, as the values loops of
pep_attribute_unmarshal and pep_attributeassignment_unmarshal do: each
element must be a hessian string. -/
def hessianStrings : List Hessian → Option (List String)
  | [] => some []
  | h :: rest =>
    match h with
    | .string s => (hessianStrings rest).map (fun ss => s :: ss)
    | _ => none

/-- Unmarshals each element of a hessian list in order, as the
per-element loops of the unmarshal functions in src/pep/io.c do. -/
def unmarshalList {α : Type} (f : Hessian → Option α) : List Hessian → Option (List α)
  | [] => some []
  | h :: rest =>
    match f h with
    | some a => (unmarshalList f rest).map (fun as => a :: as)
    | none => none

/-- The map pair loop shared by all unmarshal functions in
src/pep/io.c: each pair key must be a hessian string, and the key
dispatch of one pair is the step function; a step error aborts. -/
def runPairs {σ : Type} (step : σ → Hessian × Hessian → Option σ) (s : σ) :
    List (Hessian × Hessian) → Option σ
  | [] => some s
  | p :: rest =>
    match step s p with
    | some s2 => runPairs step s2 rest
    | none => none

/-- The shared header shape of every unmarshal function in
src/pep/io.c: the input must be a hessian map, its type header must be
present and equal to the expected class tag, and then the pairs are
folded from the freshly created entity. -/
def unmarshalMap {σ : Type} (cls : String) (init : σ)
    (step : σ → Hessian × Hessian → Option σ) (h : Hessian) : Option σ :=
  match h with
  | .map (some ty) pairs => if ty = cls then runPairs step init pairs else none
  | _ => none

/-- Whether a hessian value is a map whose type header is present and
equal to the given class tag (the check at the top of every unmarshal
function in src/pep/io.c). -/
def hessianHeaderIs (cls : String) : Hessian → Prop
  | .map (some ty) _ => ty = cls
  | _ => False

/-- Whether a hessian value is the hessian null (the HESSIAN_NULL type
test of hessian_gettype). -/
def Hessian.isNull : Hessian → Bool
  | .null => true
  | _ => false

/-- Whether a hessian map contains a pair whose key is the given string. -/
def mapHasKey (h : Hessian) (key : String) : Bool :=
  match h with
  | .map _ pairs =>
    pairs.any (fun p =>
      match p.1 with
      | .string s => s == key
      | _ => false)
  | _ => false

/-- pep_attribute_marshal from src/pep/io.c lines 191 to 280: a typed
map holding the mandatory id, the datatype and issuer pairs only when
those fields are set, and the values list. Creating the hessian string
for a null id fails (modelled from the spec: hessian string creation in
src/hessian requires a non-null string). -/
def pep_attribute_marshal (attr : PepAttribute) : Option Hessian :=
  match attr.id with
  | none => none
  | some idStr =>
    some (.map (some PEP_ATTRIBUTE_CLASSNAME)
      ([(Hessian.string PEP_ATTRIBUTE_ID, Hessian.string idStr)]
        ++ (match attr.datatype with
            | some dt => [(Hessian.string PEP_ATTRIBUTE_DATATYPE, Hessian.string dt)]
            | none => [])
        ++ (match attr.issuer with
            | some iss => [(Hessian.string PEP_ATTRIBUTE_ISSUER, Hessian.string iss)]
            | none => [])
        ++ [(Hessian.string PEP_ATTRIBUTE_VALUES,
             Hessian.list (attr.values.map Hessian.string))]))

/-- pep_subject_marshal from src/pep/io.c lines 946 to 1009: the
category pair only when the category is set, then the attributes list. -/
def pep_subject_marshal (subject : PepSubject) : Option Hessian :=
  match marshalList pep_attribute_marshal subject.attributes with
  | none => none
  | some hattrs =>
    some (.map (some PEP_SUBJECT_CLASSNAME)
      ((match subject.category with
        | some c => [(Hessian.string PEP_SUBJECT_CATEGORY, Hessian.string c)]
        | none => [])
        ++ [(Hessian.string PEP_SUBJECT_ATTRIBUTES, Hessian.list hattrs)]))

/-- pep_resource_marshal from src/pep/io.c lines 788 to 852: the
content pair only when the content is set, then the attributes list. -/
def pep_resource_marshal (resource : PepResource) : Option Hessian :=
  match marshalList pep_attribute_marshal resource.attributes with
  | none => none
  | some hattrs =>
    some (.map (some PEP_RESOURCE_CLASSNAME)
      ((match resource.content with
        | some c => [(Hessian.string PEP_RESOURCE_CONTENT, Hessian.string c)]
        | none => [])
        ++ [(Hessian.string PEP_RESOURCE_ATTRIBUTES, Hessian.list hattrs)]))

/-- pep_action_marshal from src/pep/io.c lines 57 to 115: a hessian
null for a null action, otherwise a typed map with the attributes list. -/
def pep_action_marshal : Option PepAction → Option Hessian
  | none => some Hessian.null
  | some action =>
    match marshalList pep_attribute_marshal action.attributes with
    | none => none
    | some hattrs =>
      some (.map (some PEP_ACTION_CLASSNAME)
        [(Hessian.string PEP_ACTION_ATTRIBUTES, Hessian.list hattrs)])

/-- pep_environment_marshal from src/pep/io.c lines 410 to 461: a
hessian null for a null environment, otherwise a typed map with the
attributes list. -/
def pep_environment_marshal : Option PepEnvironment → Option Hessian
  | none => some Hessian.null
  | some env =>
    match marshalList pep_attribute_marshal env.attributes with
    | none => none
    | some hattrs =>
      some (.map (some PEP_ENVIRONMENT_CLASSNAME)
        [(Hessian.string PEP_ENVIRONMENT_ATTRIBUTES, Hessian.list hattrs)])

/-- pep_request_marshal from src/pep/io.c lines 537 to 649: a typed map
always holding the subjects list, the resources list, the action and
the environment, in that order. -/
def pep_request_marshal (request : PepRequest) : Option Hessian :=
  match marshalList pep_subject_marshal request.subjects with
  | none => none
  | some hsubjects =>
    match marshalList pep_resource_marshal request.resources with
    | none => none
    | some hresources =>
      match pep_action_marshal request.action with
      | none => none
      | some haction =>
        match pep_environment_marshal request.environment with
        | none => none
        | some henvironment =>
          some (.map (some PEP_REQUEST_CLASSNAME)
            [(Hessian.string PEP_REQUEST_SUBJECTS, Hessian.list hsubjects),
             (Hessian.string PEP_REQUEST_RESOURCES, Hessian.list hresources),
             (Hessian.string PEP_REQUEST_ACTION, haction),
             (Hessian.string PEP_REQUEST_ENVIRONMENT, henvironment)])

/-- Key dispatch of pep_attribute_unmarshal (src/pep/io.c lines 306 to
402): id must be a string; datatype and issuer accept a string or a
null (null clears the field); values must be a list of strings and is
appended; an unknown key is skipped with a warning. -/
def attributeStep (st : PepAttribute) : Hessian × Hessian → Option PepAttribute
  | (k, v) =>
    match k with
    | .string ks =>
      if ks = PEP_ATTRIBUTE_ID then
        match v with
        | .string idStr => some { st with id := some idStr }
        | _ => none
      else if ks = PEP_ATTRIBUTE_DATATYPE then
        match v with
        | .string dt => some { st with datatype := some dt }
        | .null => some { st with datatype := none }
        | _ => none
      else if ks = PEP_ATTRIBUTE_ISSUER then
        match v with
        | .string iss => some { st with issuer := some iss }
        | .null => some { st with issuer := none }
        | _ => none
      else if ks = PEP_ATTRIBUTE_VALUES then
        match v with
        | .list items =>
          (hessianStrings items).map (fun vs => { st with values := st.values ++ vs })
        | _ => none
      else some st
    | _ => none

/-- pep_attribute_unmarshal from src/pep/io.c lines 282 to 405. -/
def pep_attribute_unmarshal : Hessian → Option PepAttribute :=
  unmarshalMap PEP_ATTRIBUTE_CLASSNAME
    { id := none, datatype := none, issuer := none, values := [] } attributeStep

/-- Key dispatch of pep_action_unmarshal (src/pep/io.c lines 140 to
182): the attributes key must be a list of attributes, appended in
order; an unknown key is skipped with a warning. -/
def actionStep (st : PepAction) : Hessian × Hessian → Option PepAction
  | (_k, v) =>
    match _k with
    | .string ks =>
      if ks = PEP_ACTION_ATTRIBUTES then
        match v with
        | .list items =>
          (unmarshalList pep_attribute_unmarshal items).map
            (fun as => { st with attributes := st.attributes ++ as })
        | _ => none
      else some st
    | _ => none

/-- pep_action_unmarshal from src/pep/io.c lines 117 to 185. -/
def pep_action_unmarshal : Hessian → Option PepAction :=
  unmarshalMap PEP_ACTION_CLASSNAME { attributes := [] } actionStep

/-- Key dispatch of pep_environment_unmarshal (src/pep/io.c lines 487
to 529). -/
def environmentStep (st : PepEnvironment) : Hessian × Hessian → Option PepEnvironment
  | (k, v) =>
    match k with
    | .string ks =>
      if ks = PEP_ENVIRONMENT_ATTRIBUTES then
        match v with
        | .list items =>
          (unmarshalList pep_attribute_unmarshal items).map
            (fun as => { st with attributes := st.attributes ++ as })
        | _ => none
      else some st
    | _ => none

/-- pep_environment_unmarshal from src/pep/io.c lines 464 to 532. -/
def pep_environment_unmarshal : Hessian → Option PepEnvironment :=
  unmarshalMap PEP_ENVIRONMENT_CLASSNAME { attributes := [] } environmentStep

/-- Key dispatch of pep_subject_unmarshal (src/pep/io.c lines 1035 to
1099): category accepts a string or a null (null clears the field);
attributes must be a list of attributes. -/
def subjectStep (st : PepSubject) : Hessian × Hessian → Option PepSubject
  | (k, v) =>
    match k with
    | .string ks =>
      if ks = PEP_SUBJECT_CATEGORY then
        match v with
        | .string c => some { st with category := some c }
        | .null => some { st with category := none }
        | _ => none
      else if ks = PEP_SUBJECT_ATTRIBUTES then
        match v with
        | .list items =>
          (unmarshalList pep_attribute_unmarshal items).map
            (fun as => { st with attributes := st.attributes ++ as })
        | _ => none
      else some st
    | _ => none

/-- pep_subject_unmarshal from src/pep/io.c lines 1011 to 1103. -/
def pep_subject_unmarshal : Hessian → Option PepSubject :=
  unmarshalMap PEP_SUBJECT_CLASSNAME { category := none, attributes := [] } subjectStep

/-- Key dispatch of pep_resource_unmarshal (src/pep/io.c lines 878 to
940): content accepts a string or a null (null clears the field);
attributes must be a list of attributes. -/
def resourceStep (st : PepResource) : Hessian × Hessian → Option PepResource
  | (k, v) =>
    match k with
    | .string ks =>
      if ks = PEP_RESOURCE_CONTENT then
        match v with
        | .string c => some { st with content := some c }
        | .null => some { st with content := none }
        | _ => none
      else if ks = PEP_RESOURCE_ATTRIBUTES then
        match v with
        | .list items =>
          (unmarshalList pep_attribute_unmarshal items).map
            (fun as => { st with attributes := st.attributes ++ as })
        | _ => none
      else some st
    | _ => none

/-- pep_resource_unmarshal from src/pep/io.c lines 854 to 943. -/
def pep_resource_unmarshal : Hessian → Option PepResource :=
  unmarshalMap PEP_RESOURCE_CLASSNAME { content := none, attributes := [] } resourceStep

/-- Key dispatch of pep_request_unmarshal (src/pep/io.c lines 675 to
781): subjects and resources must be lists, appended in order; the
action and environment values are unmarshalled and set unless they are
hessian null, which leaves the field absent. -/
def requestStep (st : PepRequest) : Hessian × Hessian → Option PepRequest
  | (k, v) =>
    match k with
    | .string ks =>
      if ks = PEP_REQUEST_SUBJECTS then
        match v with
        | .list items =>
          (unmarshalList pep_subject_unmarshal items).map
            (fun ss => { st with subjects := st.subjects ++ ss })
        | _ => none
      else if ks = PEP_REQUEST_RESOURCES then
        match v with
        | .list items =>
          (unmarshalList pep_resource_unmarshal items).map
            (fun rs => { st with resources := st.resources ++ rs })
        | _ => none
      else if ks = PEP_REQUEST_ACTION then
        if v.isNull then some st
        else (pep_action_unmarshal v).map (fun a => { st with action := some a })
      else if ks = PEP_REQUEST_ENVIRONMENT then
        if v.isNull then some st
        else (pep_environment_unmarshal v).map (fun e => { st with environment := some e })
      else some st
    | _ => none

/-- pep_request_unmarshal from src/pep/io.c lines 651 to 785. -/
def pep_request_unmarshal : Hessian → Option PepRequest :=
  unmarshalMap PEP_REQUEST_CLASSNAME
    { subjects := [], resources := [], action := none, environment := none } requestStep

mutual

/-- pep_statuscode_unmarshal from src/pep/io.c lines 1447 to 1527: a
typed StatusCode map with a mandatory code string and an optional
nested subcode, recursively unmarshalled unless it is hessian null. -/
def pep_statuscode_unmarshal (h : Hessian) : Option PepStatusCode :=
  match h with
  | .map (some ty) pairs =>
    if ty = PEP_STATUS_CODE_CLASSNAME then
      statuscodePairs (PepStatusCode.mk none none) pairs
    else none
  | _ => none
termination_by sizeOf h

/-- The map pair loop of pep_statuscode_unmarshal. -/
def statuscodePairs (st : PepStatusCode) (l : List (Hessian × Hessian)) :
    Option PepStatusCode :=
  match l with
  | [] => some st
  | (k, v) :: rest =>
    match k with
    | .string ks =>
      if ks = PEP_STATUS_CODE_CODE then
        match v with
        | .string c => statuscodePairs (pep_status_code_setcode st c) rest
        | _ => none
      else if ks = PEP_STATUS_CODE_SUBCODE then
        if v.isNull then statuscodePairs st rest
        else
          match pep_statuscode_unmarshal v with
          | some sub => statuscodePairs (pep_status_code_setsubcode st sub) rest
          | none => none
      else statuscodePairs st rest
    | _ => none
termination_by sizeOf l

end

/-- Key dispatch of pep_status_unmarshal (src/pep/io.c lines 1389 to
1441): message must be a string. For the code key the source tests the
hessian type of the enclosing status map, not of the value; since the
enclosing object is a map at this point, the test is always true and
the value is always handed to pep_statuscode_unmarshal, so a hessian
null value is a decode error here. -/
def statusStep (st : PepStatus) : Hessian × Hessian → Option PepStatus
  | (k, v) =>
    match k with
    | .string ks =>
      if ks = PEP_STATUS_MESSAGE then
        match v with
        | .string msg => some { st with message := some msg }
        | _ => none
      else if ks = PEP_STATUS_CODE then
        match pep_statuscode_unmarshal v with
        | some sc => some { st with code := some sc }
        | none => none
      else some st
    | _ => none

/-- pep_status_unmarshal from src/pep/io.c lines 1367 to 1444. -/
def pep_status_unmarshal : Hessian → Option PepStatus :=
  unmarshalMap PEP_STATUS_CLASSNAME { message := none, code := none } statusStep

/-- Key dispatch of pep_attributeassignment_unmarshal (src/pep/io.c
lines 1656 to 1714). -/
def attributeAssignmentStep (st : PepAttributeAssignment) :
    Hessian × Hessian → Option PepAttributeAssignment
  | (k, v) =>
    match k with
    | .string ks =>
      if ks = PEP_ATTRIBUTEASSIGNMENT_ID then
        match v with
        | .string idStr => some { st with id := some idStr }
        | _ => none
      else if ks = PEP_ATTRIBUTEASSIGNMENT_VALUES then
        match v with
        | .list items =>
          (hessianStrings items).map (fun vs => { st with values := st.values ++ vs })
        | _ => none
      else some st
    | _ => none

/-- pep_attributeassignment_unmarshal from src/pep/io.c lines 1632 to
1718. -/
def pep_attributeassignment_unmarshal : Hessian → Option PepAttributeAssignment :=
  unmarshalMap PEP_ATTRIBUTEASSIGNMENT_CLASSNAME { id := none, values := [] }
    attributeAssignmentStep

/-- Key dispatch of pep_obligation_unmarshal (src/pep/io.c lines 1552
to 1625): id and fulfillOn go through the model setters of
src/pep/obligation.c, whose error aborts the decode; the assignments
list is appended in order. -/
def obligationStep (st : PepObligation) : Hessian × Hessian → Option PepObligation
  | (k, v) =>
    match k with
    | .string ks =>
      if ks = PEP_OBLIGATION_ID then
        match v with
        | .string idStr =>
          match pep_obligation_setid true (some st) (some idStr) with
          | (rc, obl2) => if rc = PEP_MODEL_OK then obl2 else none
        | _ => none
      else if ks = PEP_OBLIGATION_FULFILLON then
        match v with
        | .integer d =>
          match pep_obligation_setfulfillon (some st) d with
          | (rc, obl2) => if rc = PEP_MODEL_OK then obl2 else none
        | _ => none
      else if ks = PEP_OBLIGATION_ASSIGNMENTS then
        match v with
        | .list items =>
          (unmarshalList pep_attributeassignment_unmarshal items).map
            (fun as => { st with assignments := st.assignments ++ as })
        | _ => none
      else some st
    | _ => none

/-- pep_obligation_unmarshal from src/pep/io.c lines 1529 to 1630. -/
def pep_obligation_unmarshal : Hessian → Option PepObligation :=
  unmarshalMap PEP_OBLIGATION_CLASSNAME (pep_obligation_create none) obligationStep

/-- Key dispatch of pep_result_unmarshal (src/pep/io.c lines 1262 to
1361): decision must be an integer accepted by the model setter;
resourceId accepts a string or null; a non-null status value is
unmarshalled and set, a null one is skipped with a warning; obligations
must be a list. -/
def resultStep (st : PepResult) : Hessian × Hessian → Option PepResult
  | (k, v) =>
    match k with
    | .string ks =>
      if ks = PEP_RESULT_DECISION then
        match v with
        | .integer d => pep_result_setdecision st d
        | _ => none
      else if ks = PEP_RESULT_RESOURCEID then
        match v with
        | .string s => some { st with resourceid := some s }
        | .null => some { st with resourceid := none }
        | _ => none
      else if ks = PEP_RESULT_STATUS then
        if v.isNull then some st
        else
          match pep_status_unmarshal v with
          | some s => some { st with status := some s }
          | none => none
      else if ks = PEP_RESULT_OBLIGATIONS then
        match v with
        | .list items =>
          (unmarshalList pep_obligation_unmarshal items).map
            (fun os => { st with obligations := st.obligations ++ os })
        | _ => none
      else some st
    | _ => none

/-- pep_result_unmarshal from src/pep/io.c lines 1239 to 1364. The
created result starts with the model default decision Deny (modelled
from the spec for pep_result_create). -/
def pep_result_unmarshal : Hessian → Option PepResult :=
  unmarshalMap PEP_RESULT_CLASSNAME
    { decision := 0, resourceid := none, status := none, obligations := [] } resultStep

/-- Key dispatch of pep_response_unmarshal (src/pep/io.c lines 1168 to
1233): a non-null request value is unmarshalled and set, a null one is
skipped with a warning; results must be a list. -/
def responseStep (st : PepResponse) : Hessian × Hessian → Option PepResponse
  | (k, v) =>
    match k with
    | .string ks =>
      if ks = PEP_RESPONSE_REQUEST then
        if v.isNull then some st
        else
          match pep_request_unmarshal v with
          | some r => some { st with request := some r }
          | none => none
      else if ks = PEP_RESPONSE_RESULTS then
        match v with
        | .list items =>
          (unmarshalList pep_result_unmarshal items).map
            (fun rs => { st with results := st.results ++ rs })
        | _ => none
      else some st
    | _ => none

/-- pep_response_unmarshal from src/pep/io.c lines 1144 to 1236. -/
def pep_response_unmarshal : Hessian → Option PepResponse :=
  unmarshalMap PEP_RESPONSE_CLASSNAME { request := none, results := [] } responseStep

/-- The key dispatch of pep_statuscode_unmarshal expressed as a step
function, to relate statuscodePairs to the shared pair loop. -/
def statuscodeStep (st : PepStatusCode) : Hessian × Hessian → Option PepStatusCode
  | (k, v) =>
    match k with
    | .string ks =>
      if ks = PEP_STATUS_CODE_CODE then
        match v with
        | .string c => some (pep_status_code_setcode st c)
        | _ => none
      else if ks = PEP_STATUS_CODE_SUBCODE then
        if v.isNull then some st
        else
          match pep_statuscode_unmarshal v with
          | some sub => some (pep_status_code_setsubcode st sub)
          | none => none
      else some st
    | _ => none

/-- The known map keys of pep_attribute_unmarshal. -/
def attributeKnownKeys : List String :=
  [PEP_ATTRIBUTE_ID, PEP_ATTRIBUTE_DATATYPE, PEP_ATTRIBUTE_ISSUER, PEP_ATTRIBUTE_VALUES]

/-- The known map keys of pep_action_unmarshal. -/
def actionKnownKeys : List String := [PEP_ACTION_ATTRIBUTES]

/-- The known map keys of pep_environment_unmarshal. -/
def environmentKnownKeys : List String := [PEP_ENVIRONMENT_ATTRIBUTES]

/-- The known map keys of pep_subject_unmarshal. -/
def subjectKnownKeys : List String := [PEP_SUBJECT_CATEGORY, PEP_SUBJECT_ATTRIBUTES]

/-- The known map keys of pep_resource_unmarshal. -/
def resourceKnownKeys : List String := [PEP_RESOURCE_CONTENT, PEP_RESOURCE_ATTRIBUTES]

/-- The known map keys of pep_request_unmarshal. -/
def requestKnownKeys : List String :=
  [PEP_REQUEST_SUBJECTS, PEP_REQUEST_RESOURCES, PEP_REQUEST_ACTION, PEP_REQUEST_ENVIRONMENT]

/-- The known map keys of pep_response_unmarshal. -/
def responseKnownKeys : List String := [PEP_RESPONSE_REQUEST, PEP_RESPONSE_RESULTS]

/-- The known map keys of pep_result_unmarshal. -/
def resultKnownKeys : List String :=
  [PEP_RESULT_DECISION, PEP_RESULT_RESOURCEID, PEP_RESULT_STATUS, PEP_RESULT_OBLIGATIONS]

/-- The known map keys of pep_status_unmarshal. -/
def statusKnownKeys : List String := [PEP_STATUS_MESSAGE, PEP_STATUS_CODE]

/-- The known map keys of pep_statuscode_unmarshal. -/
def statuscodeKnownKeys : List String := [PEP_STATUS_CODE_CODE, PEP_STATUS_CODE_SUBCODE]

/-- The known map keys of pep_obligation_unmarshal. -/
def obligationKnownKeys : List String :=
  [PEP_OBLIGATION_ID, PEP_OBLIGATION_FULFILLON, PEP_OBLIGATION_ASSIGNMENTS]

/-- The known map keys of pep_attributeassignment_unmarshal. -/
def attributeAssignmentKnownKeys : List String :=
  [PEP_ATTRIBUTEASSIGNMENT_ID, PEP_ATTRIBUTEASSIGNMENT_VALUES]

/-- Modelled from the spec: the voms-fqan attribute identifier of the
AuthZ Interop profile, from the CLI headers (not under src/); an opaque
string. -/
def XACML_AUTHZINTEROP_SUBJECT_VOMS_FQAN : String :=
  "http://authz-interop.org/xacml/subject/voms-fqan"

/-- Modelled from the spec: the voms-primary-fqan attribute identifier
of the AuthZ Interop profile, from the CLI headers (not under src/). -/
def XACML_AUTHZINTEROP_SUBJECT_VOMS_PRIMARY_FQAN : String :=
  "http://authz-interop.org/xacml/subject/voms-primary-fqan"

/-- Modelled from the spec: the XML Schema string datatype identifier,
from the CLI headers (not under src/). -/
def XACML_DATATYPE_STRING : String := "http://www.w3.org/2001/XMLSchema#string"

/-- create_xacml_subject_voms_fqans from src/cli/main.c lines 215 to
258: a null or empty FQAN list yields no subject; otherwise the subject
holds the voms-primary-fqan attribute with the first FQAN as its single
value, then the voms-fqan attribute with all the FQANs in list order,
both with the string datatype. -/
def create_xacml_subject_voms_fqans : Option (List String) → Option PepSubject
  | none => none
  | some fqans =>
    match fqans with
    | [] => none
    | first :: _ =>
      some { category := none,
             attributes :=
               [{ id := some XACML_AUTHZINTEROP_SUBJECT_VOMS_PRIMARY_FQAN,
                  datatype := some XACML_DATATYPE_STRING,
                  issuer := none, values := [first] },
                { id := some XACML_AUTHZINTEROP_SUBJECT_VOMS_FQAN,
                  datatype := some XACML_DATATYPE_STRING,
                  issuer := none, values := fqans }] }

/-- merge_xacml_subject_attrs_into from src/cli/main.c lines 268 to
286: a null destination is an error; a null source subject is a no-op
returning 0; otherwise every source attribute is appended to the
destination in order. -/
def merge_xacml_subject_attrs_into :
    Option PepSubject → Option PepSubject → Int × Option PepSubject
  | _, none => (-1, none)
  | none, some toSubject => (0, some toSubject)
  | some fromSubject, some toSubject =>
    (0, some { toSubject with attributes := toSubject.attributes ++ fromSubject.attributes })

/-! Generic lemmas about the shared map pair loop. -/

theorem runPairs_skip_insert {σ : Type} (step : σ → Hessian × Hessian → Option σ)
    (k : Hessian) (v : Hessian) (hstep : ∀ s, step s (k, v) = some s) :
    ∀ (l₁ l₂ : List (Hessian × Hessian)) (s : σ),
      runPairs step s (l₁ ++ (k, v) :: l₂) = runPairs step s (l₁ ++ l₂) := by
  intro l₁
  induction l₁ with
  | nil => intro l₂ s; simp [runPairs, hstep]
  | cons p l ih =>
    intro l₂ s
    simp only [List.cons_append, runPairs]
    cases step s p with
    | none => rfl
    | some s2 => exact ih l₂ s2

theorem unmarshalMap_skip {σ : Type} (cls : String) (init : σ)
    (step : σ → Hessian × Hessian → Option σ) (k : String) (v : Hessian)
    (hstep : ∀ s, step s (Hessian.string k, v) = some s)
    (ty : Option String) (l₁ l₂ : List (Hessian × Hessian)) (e : σ)
    (h : unmarshalMap cls init step (.map ty (l₁ ++ l₂)) = some e) :
    unmarshalMap cls init step (.map ty (l₁ ++ (Hessian.string k, v) :: l₂)) = some e := by
  cases ty with
  | none => simp [unmarshalMap] at h
  | some t =>
    simp only [unmarshalMap] at h ⊢
    by_cases ht : t = cls
    · simp only [ht, if_pos rfl] at h ⊢
      rw [runPairs_skip_insert step _ _ hstep]
      exact h
    · simp [ht] at h

theorem unmarshalMap_header {σ : Type} (cls : String) (init : σ)
    (step : σ → Hessian × Hessian → Option σ) (h : Hessian)
    (hh : ¬ hessianHeaderIs cls h) : unmarshalMap cls init step h = none := by
  cases h with
  | null => rfl
  | integer _ => rfl
  | string _ => rfl
  | list _ => rfl
  | map ty pairs =>
    cases ty with
    | none => rfl
    | some t =>
      simp only [hessianHeaderIs] at hh
      simp [unmarshalMap, hh]

theorem hessianStrings_map (vs : List String) :
    hessianStrings (vs.map Hessian.string) = some vs := by
  induction vs with
  | nil => rfl
  | cons s rest ih => simp [hessianStrings, ih]

theorem marshalList_roundtrip {α : Type} (f : α → Option Hessian) (g : Hessian → Option α)
    (hfg : ∀ a h, f a = some h → g h = some a) :
    ∀ (as : List α) (hs : List Hessian),
      marshalList f as = some hs → unmarshalList g hs = some as := by
  intro as
  induction as with
  | nil =>
    intro hs h
    simp only [marshalList] at h
    cases h
    rfl
  | cons a rest ih =>
    intro hs h
    simp only [marshalList] at h
    cases hf : f a with
    | none => rw [hf] at h; exact absurd h (by simp)
    | some ha =>
      rw [hf] at h
      cases hr : marshalList f rest with
      | none => rw [hr] at h; exact absurd h (by simp)
      | some hrest =>
        rw [hr] at h
        simp only [Option.map_some] at h
        cases h
        simp [unmarshalList, hfg a ha hf, ih hrest hr]

/-! Unknown map keys are skipped by every key dispatch function. -/

theorem attributeStep_skip (k : String) (hk : k ∉ attributeKnownKeys) :
    ∀ (s : PepAttribute) (v : Hessian), attributeStep s (Hessian.string k, v) = some s := by
  simp only [attributeKnownKeys, List.mem_cons, List.not_mem_nil, or_false, not_or] at hk
  obtain ⟨h1, h2, h3, h4⟩ := hk
  intro s v
  simp [attributeStep, h1, h2, h3, h4]

theorem actionStep_skip (k : String) (hk : k ∉ actionKnownKeys) :
    ∀ (s : PepAction) (v : Hessian), actionStep s (Hessian.string k, v) = some s := by
  simp only [actionKnownKeys, List.mem_cons, List.not_mem_nil, or_false, not_or] at hk
  intro s v
  simp [actionStep, hk]

theorem environmentStep_skip (k : String) (hk : k ∉ environmentKnownKeys) :
    ∀ (s : PepEnvironment) (v : Hessian), environmentStep s (Hessian.string k, v) = some s := by
  simp only [environmentKnownKeys, List.mem_cons, List.not_mem_nil, or_false, not_or] at hk
  intro s v
  simp [environmentStep, hk]

theorem subjectStep_skip (k : String) (hk : k ∉ subjectKnownKeys) :
    ∀ (s : PepSubject) (v : Hessian), subjectStep s (Hessian.string k, v) = some s := by
  simp only [subjectKnownKeys, List.mem_cons, List.not_mem_nil, or_false, not_or] at hk
  obtain ⟨h1, h2⟩ := hk
  intro s v
  simp [subjectStep, h1, h2]

theorem resourceStep_skip (k : String) (hk : k ∉ resourceKnownKeys) :
    ∀ (s : PepResource) (v : Hessian), resourceStep s (Hessian.string k, v) = some s := by
  simp only [resourceKnownKeys, List.mem_cons, List.not_mem_nil, or_false, not_or] at hk
  obtain ⟨h1, h2⟩ := hk
  intro s v
  simp [resourceStep, h1, h2]

theorem requestStep_skip (k : String) (hk : k ∉ requestKnownKeys) :
    ∀ (s : PepRequest) (v : Hessian), requestStep s (Hessian.string k, v) = some s := by
  simp only [requestKnownKeys, List.mem_cons, List.not_mem_nil, or_false, not_or] at hk
  obtain ⟨h1, h2, h3, h4⟩ := hk
  intro s v
  simp [requestStep, h1, h2, h3, h4]

theorem responseStep_skip (k : String) (hk : k ∉ responseKnownKeys) :
    ∀ (s : PepResponse) (v : Hessian), responseStep s (Hessian.string k, v) = some s := by
  simp only [responseKnownKeys, List.mem_cons, List.not_mem_nil, or_false, not_or] at hk
  obtain ⟨h1, h2⟩ := hk
  intro s v
  simp [responseStep, h1, h2]

theorem resultStep_skip (k : String) (hk : k ∉ resultKnownKeys) :
    ∀ (s : PepResult) (v : Hessian), resultStep s (Hessian.string k, v) = some s := by
  simp only [resultKnownKeys, List.mem_cons, List.not_mem_nil, or_false, not_or] at hk
  obtain ⟨h1, h2, h3, h4⟩ := hk
  intro s v
  simp [resultStep, h1, h2, h3, h4]

theorem statusStep_skip (k : String) (hk : k ∉ statusKnownKeys) :
    ∀ (s : PepStatus) (v : Hessian), statusStep s (Hessian.string k, v) = some s := by
  simp only [statusKnownKeys, List.mem_cons, List.not_mem_nil, or_false, not_or] at hk
  obtain ⟨h1, h2⟩ := hk
  intro s v
  simp [statusStep, h1, h2]

theorem statuscodeStep_skip (k : String) (hk : k ∉ statuscodeKnownKeys) :
    ∀ (s : PepStatusCode) (v : Hessian), statuscodeStep s (Hessian.string k, v) = some s := by
  simp only [statuscodeKnownKeys, List.mem_cons, List.not_mem_nil, or_false, not_or] at hk
  obtain ⟨h1, h2⟩ := hk
  intro s v
  simp [statuscodeStep, h1, h2]

theorem obligationStep_skip (k : String) (hk : k ∉ obligationKnownKeys) :
    ∀ (s : PepObligation) (v : Hessian), obligationStep s (Hessian.string k, v) = some s := by
  simp only [obligationKnownKeys, List.mem_cons, List.not_mem_nil, or_false, not_or] at hk
  obtain ⟨h1, h2, h3⟩ := hk
  intro s v
  simp [obligationStep, h1, h2, h3]

theorem attributeAssignmentStep_skip (k : String) (hk : k ∉ attributeAssignmentKnownKeys) :
    ∀ (s : PepAttributeAssignment) (v : Hessian),
      attributeAssignmentStep s (Hessian.string k, v) = some s := by
  simp only [attributeAssignmentKnownKeys, List.mem_cons, List.not_mem_nil, or_false,
    not_or] at hk
  obtain ⟨h1, h2⟩ := hk
  intro s v
  simp [attributeAssignmentStep, h1, h2]

/-! The recursive statuscode pair loop agrees with the shared pair loop
driven by statuscodeStep. -/

theorem statuscodePairs_eq_runPairs :
    ∀ (l : List (Hessian × Hessian)) (st : PepStatusCode),
      statuscodePairs st l = runPairs statuscodeStep st l := by
  intro l
  induction l with
  | nil => intro st; simp [statuscodePairs, runPairs]
  | cons p rest ih =>
    intro st
    obtain ⟨k, v⟩ := p
    cases k with
    | null => simp [statuscodePairs, runPairs, statuscodeStep]
    | integer n => simp [statuscodePairs, runPairs, statuscodeStep]
    | list items => simp [statuscodePairs, runPairs, statuscodeStep]
    | map ty pairs => simp [statuscodePairs, runPairs, statuscodeStep]
    | string ks =>
      by_cases h1 : ks = PEP_STATUS_CODE_CODE
      · cases v <;>
          simp [statuscodePairs, runPairs, statuscodeStep, PEP_STATUS_CODE_CODE,
            PEP_STATUS_CODE_SUBCODE, h1, ih]
      · by_cases h2 : ks = PEP_STATUS_CODE_SUBCODE
        · cases v with
          | null =>
            simp [statuscodePairs, runPairs, statuscodeStep, Hessian.isNull,
              PEP_STATUS_CODE_CODE, PEP_STATUS_CODE_SUBCODE, h1, h2, ih]
          | integer n =>
            cases hu : pep_statuscode_unmarshal (.integer n) <;>
              simp [statuscodePairs, runPairs, statuscodeStep, Hessian.isNull,
                PEP_STATUS_CODE_CODE, PEP_STATUS_CODE_SUBCODE, h1, h2, hu, ih]
          | string c =>
            cases hu : pep_statuscode_unmarshal (.string c) <;>
              simp [statuscodePairs, runPairs, statuscodeStep, Hessian.isNull,
                PEP_STATUS_CODE_CODE, PEP_STATUS_CODE_SUBCODE, h1, h2, hu, ih]
          | list items =>
            cases hu : pep_statuscode_unmarshal (.list items) <;>
              simp [statuscodePairs, runPairs, statuscodeStep, Hessian.isNull,
                PEP_STATUS_CODE_CODE, PEP_STATUS_CODE_SUBCODE, h1, h2, hu, ih]
          | map ty pairs =>
            cases hu : pep_statuscode_unmarshal (.map ty pairs) <;>
              simp [statuscodePairs, runPairs, statuscodeStep, Hessian.isNull,
                PEP_STATUS_CODE_CODE, PEP_STATUS_CODE_SUBCODE, h1, h2, hu, ih]
        · cases v <;> simp [statuscodePairs, runPairs, statuscodeStep, h1, h2, ih]

/-! Round trips of the request-side entities. -/

theorem pep_attribute_roundtrip (a : PepAttribute) (h : Hessian)
    (hm : pep_attribute_marshal a = some h) : pep_attribute_unmarshal h = some a := by
  obtain ⟨ido, dto, iso, vs⟩ := a
  cases ido with
  | none => simp [pep_attribute_marshal] at hm
  | some i =>
    cases dto <;> cases iso <;>
      (simp only [pep_attribute_marshal, Option.some.injEq] at hm; subst hm;
       simp [pep_attribute_unmarshal, unmarshalMap, runPairs, attributeStep,
         PEP_ATTRIBUTE_CLASSNAME, PEP_ATTRIBUTE_ID, PEP_ATTRIBUTE_DATATYPE,
         PEP_ATTRIBUTE_ISSUER, PEP_ATTRIBUTE_VALUES, hessianStrings_map])

theorem pep_subject_roundtrip (s : PepSubject) (h : Hessian)
    (hm : pep_subject_marshal s = some h) : pep_subject_unmarshal h = some s := by
  obtain ⟨cato, attrs⟩ := s
  simp only [pep_subject_marshal] at hm
  cases hml : marshalList pep_attribute_marshal attrs with
  | none => rw [hml] at hm; exact absurd hm (by simp)
  | some hattrs =>
    rw [hml] at hm
    have hrt := marshalList_roundtrip pep_attribute_marshal pep_attribute_unmarshal
      pep_attribute_roundtrip attrs hattrs hml
    cases cato <;>
      (simp only [Option.some.injEq] at hm; subst hm;
       simp [pep_subject_unmarshal, unmarshalMap, runPairs, subjectStep,
         PEP_SUBJECT_CLASSNAME, PEP_SUBJECT_CATEGORY, PEP_SUBJECT_ATTRIBUTES, hrt])

theorem pep_resource_roundtrip (r : PepResource) (h : Hessian)
    (hm : pep_resource_marshal r = some h) : pep_resource_unmarshal h = some r := by
  obtain ⟨conto, attrs⟩ := r
  simp only [pep_resource_marshal] at hm
  cases hml : marshalList pep_attribute_marshal attrs with
  | none => rw [hml] at hm; exact absurd hm (by simp)
  | some hattrs =>
    rw [hml] at hm
    have hrt := marshalList_roundtrip pep_attribute_marshal pep_attribute_unmarshal
      pep_attribute_roundtrip attrs hattrs hml
    cases conto <;>
      (simp only [Option.some.injEq] at hm; subst hm;
       simp [pep_resource_unmarshal, unmarshalMap, runPairs, resourceStep,
         PEP_RESOURCE_CLASSNAME, PEP_RESOURCE_CONTENT, PEP_RESOURCE_ATTRIBUTES, hrt])

theorem pep_action_roundtrip (a : PepAction) (h : Hessian)
    (hm : pep_action_marshal (some a) = some h) : pep_action_unmarshal h = some a := by
  obtain ⟨attrs⟩ := a
  simp only [pep_action_marshal] at hm
  cases hml : marshalList pep_attribute_marshal attrs with
  | none => rw [hml] at hm; exact absurd hm (by simp)
  | some hattrs =>
    rw [hml] at hm
    have hrt := marshalList_roundtrip pep_attribute_marshal pep_attribute_unmarshal
      pep_attribute_roundtrip attrs hattrs hml
    simp only [Option.some.injEq] at hm
    subst hm
    simp [pep_action_unmarshal, unmarshalMap, runPairs, actionStep,
      PEP_ACTION_CLASSNAME, PEP_ACTION_ATTRIBUTES, hrt]

theorem pep_environment_roundtrip (e : PepEnvironment) (h : Hessian)
    (hm : pep_environment_marshal (some e) = some h) : pep_environment_unmarshal h = some e := by
  obtain ⟨attrs⟩ := e
  simp only [pep_environment_marshal] at hm
  cases hml : marshalList pep_attribute_marshal attrs with
  | none => rw [hml] at hm; exact absurd hm (by simp)
  | some hattrs =>
    rw [hml] at hm
    have hrt := marshalList_roundtrip pep_attribute_marshal pep_attribute_unmarshal
      pep_attribute_roundtrip attrs hattrs hml
    simp only [Option.some.injEq] at hm
    subst hm
    simp [pep_environment_unmarshal, unmarshalMap, runPairs, environmentStep,
      PEP_ENVIRONMENT_CLASSNAME, PEP_ENVIRONMENT_ATTRIBUTES, hrt]

theorem pep_action_marshal_not_null (a : PepAction) (h : Hessian)
    (hm : pep_action_marshal (some a) = some h) : h.isNull = false := by
  simp only [pep_action_marshal] at hm
  cases hml : marshalList pep_attribute_marshal a.attributes with
  | none => rw [hml] at hm; exact absurd hm (by simp)
  | some hattrs =>
    rw [hml] at hm
    simp only [Option.some.injEq] at hm
    subst hm
    rfl

theorem pep_environment_marshal_not_null (e : PepEnvironment) (h : Hessian)
    (hm : pep_environment_marshal (some e) = some h) : h.isNull = false := by
  simp only [pep_environment_marshal] at hm
  cases hml : marshalList pep_attribute_marshal e.attributes with
  | none => rw [hml] at hm; exact absurd hm (by simp)
  | some hattrs =>
    rw [hml] at hm
    simp only [Option.some.injEq] at hm
    subst hm
    rfl

theorem hessian_isNull_null : Hessian.isNull Hessian.null = true := rfl

/-- C3. For every Request built via the model API on which marshalling
succeeds, unmarshalling the marshalled hessian form yields a Request
structurally equal to the original: same subjects, resources and their
attributes and values in insertion order, same presence or absence of
the action and environment, same scalar field values. -/
theorem c3_request_roundtrip (R : PepRequest) (h : Hessian)
    (hm : pep_request_marshal R = some h) : pep_request_unmarshal h = some R := by
  obtain ⟨subs, ress, acto, envo⟩ := R
  simp only [pep_request_marshal] at hm
  cases hms : marshalList pep_subject_marshal subs with
  | none => rw [hms] at hm; exact absurd hm (by simp)
  | some hsubs =>
    rw [hms] at hm
    cases hmr : marshalList pep_resource_marshal ress with
    | none => rw [hmr] at hm; exact absurd hm (by simp)
    | some hress =>
      rw [hmr] at hm
      cases hma : pep_action_marshal acto with
      | none => rw [hma] at hm; exact absurd hm (by simp)
      | some hact =>
        rw [hma] at hm
        cases hme : pep_environment_marshal envo with
        | none => rw [hme] at hm; exact absurd hm (by simp)
        | some henv =>
          rw [hme] at hm
          simp only [Option.some.injEq] at hm
          subst hm
          have hsubs_rt := marshalList_roundtrip pep_subject_marshal pep_subject_unmarshal
            pep_subject_roundtrip subs hsubs hms
          have hress_rt := marshalList_roundtrip pep_resource_marshal pep_resource_unmarshal
            pep_resource_roundtrip ress hress hmr
          cases acto with
          | none =>
            simp only [pep_action_marshal, Option.some.injEq] at hma
            subst hma
            cases envo with
            | none =>
              simp only [pep_environment_marshal, Option.some.injEq] at hme
              subst hme
              simp [pep_request_unmarshal, unmarshalMap, runPairs, requestStep,
                PEP_REQUEST_CLASSNAME, PEP_REQUEST_SUBJECTS, PEP_REQUEST_RESOURCES,
                PEP_REQUEST_ACTION, PEP_REQUEST_ENVIRONMENT, hessian_isNull_null,
                hsubs_rt, hress_rt]
            | some e =>
              have henn := pep_environment_marshal_not_null e henv hme
              have hert := pep_environment_roundtrip e henv hme
              simp [pep_request_unmarshal, unmarshalMap, runPairs, requestStep,
                PEP_REQUEST_CLASSNAME, PEP_REQUEST_SUBJECTS, PEP_REQUEST_RESOURCES,
                PEP_REQUEST_ACTION, PEP_REQUEST_ENVIRONMENT, hessian_isNull_null,
                hsubs_rt, hress_rt, henn, hert]
          | some a =>
            have hann := pep_action_marshal_not_null a hact hma
            have hart := pep_action_roundtrip a hact hma
            cases envo with
            | none =>
              simp only [pep_environment_marshal, Option.some.injEq] at hme
              subst hme
              simp [pep_request_unmarshal, unmarshalMap, runPairs, requestStep,
                PEP_REQUEST_CLASSNAME, PEP_REQUEST_SUBJECTS, PEP_REQUEST_RESOURCES,
                PEP_REQUEST_ACTION, PEP_REQUEST_ENVIRONMENT, hessian_isNull_null,
                hsubs_rt, hress_rt, hann, hart]
            | some e =>
              have henn := pep_environment_marshal_not_null e henv hme
              have hert := pep_environment_roundtrip e henv hme
              simp [pep_request_unmarshal, unmarshalMap, runPairs, requestStep,
                PEP_REQUEST_CLASSNAME, PEP_REQUEST_SUBJECTS, PEP_REQUEST_RESOURCES,
                PEP_REQUEST_ACTION, PEP_REQUEST_ENVIRONMENT, hessian_isNull_null,
                hsubs_rt, hress_rt, hann, hart, henn, hert]

theorem statuscode_unmarshal_eq (h : Hessian) :
    pep_statuscode_unmarshal h =
      unmarshalMap PEP_STATUS_CODE_CLASSNAME (PepStatusCode.mk none none) statuscodeStep h := by
  cases h with
  | null => simp [pep_statuscode_unmarshal, unmarshalMap]
  | integer n => simp [pep_statuscode_unmarshal, unmarshalMap]
  | string s => simp [pep_statuscode_unmarshal, unmarshalMap]
  | list items => simp [pep_statuscode_unmarshal, unmarshalMap]
  | map ty pairs =>
    cases ty with
    | none => simp [pep_statuscode_unmarshal, unmarshalMap]
    | some t =>
      by_cases ht : t = PEP_STATUS_CODE_CLASSNAME
      · simp [pep_statuscode_unmarshal, unmarshalMap, ht, statuscodePairs_eq_runPairs]
      · simp [pep_statuscode_unmarshal, unmarshalMap, ht]

/-- C5. For every entity unmarshaller of src/pep/io.c, an input that is
not a hessian map, or whose type header is missing, or whose type
header differs from the expected class tag of that entity, is rejected:
unmarshalling returns the error result and produces no entity. -/
theorem c5_header_mismatch_rejected :
    (∀ h, ¬ hessianHeaderIs PEP_ATTRIBUTE_CLASSNAME h → pep_attribute_unmarshal h = none) ∧
    (∀ h, ¬ hessianHeaderIs PEP_ACTION_CLASSNAME h → pep_action_unmarshal h = none) ∧
    (∀ h, ¬ hessianHeaderIs PEP_ENVIRONMENT_CLASSNAME h → pep_environment_unmarshal h = none) ∧
    (∀ h, ¬ hessianHeaderIs PEP_SUBJECT_CLASSNAME h → pep_subject_unmarshal h = none) ∧
    (∀ h, ¬ hessianHeaderIs PEP_RESOURCE_CLASSNAME h → pep_resource_unmarshal h = none) ∧
    (∀ h, ¬ hessianHeaderIs PEP_REQUEST_CLASSNAME h → pep_request_unmarshal h = none) ∧
    (∀ h, ¬ hessianHeaderIs PEP_RESPONSE_CLASSNAME h → pep_response_unmarshal h = none) ∧
    (∀ h, ¬ hessianHeaderIs PEP_RESULT_CLASSNAME h → pep_result_unmarshal h = none) ∧
    (∀ h, ¬ hessianHeaderIs PEP_STATUS_CLASSNAME h → pep_status_unmarshal h = none) ∧
    (∀ h, ¬ hessianHeaderIs PEP_STATUS_CODE_CLASSNAME h → pep_statuscode_unmarshal h = none) ∧
    (∀ h, ¬ hessianHeaderIs PEP_OBLIGATION_CLASSNAME h → pep_obligation_unmarshal h = none) ∧
    (∀ h, ¬ hessianHeaderIs PEP_ATTRIBUTEASSIGNMENT_CLASSNAME h →
       pep_attributeassignment_unmarshal h = none) :=
  ⟨fun h hh => unmarshalMap_header _ _ _ h hh,
   fun h hh => unmarshalMap_header _ _ _ h hh,
   fun h hh => unmarshalMap_header _ _ _ h hh,
   fun h hh => unmarshalMap_header _ _ _ h hh,
   fun h hh => unmarshalMap_header _ _ _ h hh,
   fun h hh => unmarshalMap_header _ _ _ h hh,
   fun h hh => unmarshalMap_header _ _ _ h hh,
   fun h hh => unmarshalMap_header _ _ _ h hh,
   fun h hh => unmarshalMap_header _ _ _ h hh,
   fun h hh => (statuscode_unmarshal_eq h).trans (unmarshalMap_header _ _ _ h hh),
   fun h hh => unmarshalMap_header _ _ _ h hh,
   fun h hh => unmarshalMap_header _ _ _ h hh⟩

/-- Closed instance of c5_header_mismatch_rejected: a hessian integer
is rejected by the attribute unmarshaller. -/
theorem c5_header_mismatch_rejected_witness :
    pep_attribute_unmarshal (Hessian.integer 0) = none :=
  c5_header_mismatch_rejected.1 (Hessian.integer 0) (by simp [hessianHeaderIs])

/-- C4. For every entity unmarshaller of src/pep/io.c, inserting an
extra pair under an unknown string key (with any value) into a map that
unmarshals successfully leaves the decode successful with the very same
entity: unknown keys are skipped with a warning, never a failure. -/
theorem c4_unknown_keys_skipped :
    (∀ (ty : Option String) (l₁ l₂ : List (Hessian × Hessian)) (k : String) (v : Hessian)
       (e : PepAttribute), k ∉ attributeKnownKeys →
       pep_attribute_unmarshal (.map ty (l₁ ++ l₂)) = some e →
       pep_attribute_unmarshal (.map ty (l₁ ++ (Hessian.string k, v) :: l₂)) = some e) ∧
    (∀ (ty : Option String) (l₁ l₂ : List (Hessian × Hessian)) (k : String) (v : Hessian)
       (e : PepAction), k ∉ actionKnownKeys →
       pep_action_unmarshal (.map ty (l₁ ++ l₂)) = some e →
       pep_action_unmarshal (.map ty (l₁ ++ (Hessian.string k, v) :: l₂)) = some e) ∧
    (∀ (ty : Option String) (l₁ l₂ : List (Hessian × Hessian)) (k : String) (v : Hessian)
       (e : PepEnvironment), k ∉ environmentKnownKeys →
       pep_environment_unmarshal (.map ty (l₁ ++ l₂)) = some e →
       pep_environment_unmarshal (.map ty (l₁ ++ (Hessian.string k, v) :: l₂)) = some e) ∧
    (∀ (ty : Option String) (l₁ l₂ : List (Hessian × Hessian)) (k : String) (v : Hessian)
       (e : PepSubject), k ∉ subjectKnownKeys →
       pep_subject_unmarshal (.map ty (l₁ ++ l₂)) = some e →
       pep_subject_unmarshal (.map ty (l₁ ++ (Hessian.string k, v) :: l₂)) = some e) ∧
    (∀ (ty : Option String) (l₁ l₂ : List (Hessian × Hessian)) (k : String) (v : Hessian)
       (e : PepResource), k ∉ resourceKnownKeys →
       pep_resource_unmarshal (.map ty (l₁ ++ l₂)) = some e →
       pep_resource_unmarshal (.map ty (l₁ ++ (Hessian.string k, v) :: l₂)) = some e) ∧
    (∀ (ty : Option String) (l₁ l₂ : List (Hessian × Hessian)) (k : String) (v : Hessian)
       (e : PepRequest), k ∉ requestKnownKeys →
       pep_request_unmarshal (.map ty (l₁ ++ l₂)) = some e →
       pep_request_unmarshal (.map ty (l₁ ++ (Hessian.string k, v) :: l₂)) = some e) ∧
    (∀ (ty : Option String) (l₁ l₂ : List (Hessian × Hessian)) (k : String) (v : Hessian)
       (e : PepResponse), k ∉ responseKnownKeys →
       pep_response_unmarshal (.map ty (l₁ ++ l₂)) = some e →
       pep_response_unmarshal (.map ty (l₁ ++ (Hessian.string k, v) :: l₂)) = some e) ∧
    (∀ (ty : Option String) (l₁ l₂ : List (Hessian × Hessian)) (k : String) (v : Hessian)
       (e : PepResult), k ∉ resultKnownKeys →
       pep_result_unmarshal (.map ty (l₁ ++ l₂)) = some e →
       pep_result_unmarshal (.map ty (l₁ ++ (Hessian.string k, v) :: l₂)) = some e) ∧
    (∀ (ty : Option String) (l₁ l₂ : List (Hessian × Hessian)) (k : String) (v : Hessian)
       (e : PepStatus), k ∉ statusKnownKeys →
       pep_status_unmarshal (.map ty (l₁ ++ l₂)) = some e →
       pep_status_unmarshal (.map ty (l₁ ++ (Hessian.string k, v) :: l₂)) = some e) ∧
    (∀ (ty : Option String) (l₁ l₂ : List (Hessian × Hessian)) (k : String) (v : Hessian)
       (e : PepStatusCode), k ∉ statuscodeKnownKeys →
       pep_statuscode_unmarshal (.map ty (l₁ ++ l₂)) = some e →
       pep_statuscode_unmarshal (.map ty (l₁ ++ (Hessian.string k, v) :: l₂)) = some e) ∧
    (∀ (ty : Option String) (l₁ l₂ : List (Hessian × Hessian)) (k : String) (v : Hessian)
       (e : PepObligation), k ∉ obligationKnownKeys →
       pep_obligation_unmarshal (.map ty (l₁ ++ l₂)) = some e →
       pep_obligation_unmarshal (.map ty (l₁ ++ (Hessian.string k, v) :: l₂)) = some e) ∧
    (∀ (ty : Option String) (l₁ l₂ : List (Hessian × Hessian)) (k : String) (v : Hessian)
       (e : PepAttributeAssignment), k ∉ attributeAssignmentKnownKeys →
       pep_attributeassignment_unmarshal (.map ty (l₁ ++ l₂)) = some e →
       pep_attributeassignment_unmarshal (.map ty (l₁ ++ (Hessian.string k, v) :: l₂)) = some e) :=
  ⟨fun ty l₁ l₂ k v e hk h =>
     unmarshalMap_skip _ _ _ k v (fun s => attributeStep_skip k hk s v) ty l₁ l₂ e h,
   fun ty l₁ l₂ k v e hk h =>
     unmarshalMap_skip _ _ _ k v (fun s => actionStep_skip k hk s v) ty l₁ l₂ e h,
   fun ty l₁ l₂ k v e hk h =>
     unmarshalMap_skip _ _ _ k v (fun s => environmentStep_skip k hk s v) ty l₁ l₂ e h,
   fun ty l₁ l₂ k v e hk h =>
     unmarshalMap_skip _ _ _ k v (fun s => subjectStep_skip k hk s v) ty l₁ l₂ e h,
   fun ty l₁ l₂ k v e hk h =>
     unmarshalMap_skip _ _ _ k v (fun s => resourceStep_skip k hk s v) ty l₁ l₂ e h,
   fun ty l₁ l₂ k v e hk h =>
     unmarshalMap_skip _ _ _ k v (fun s => requestStep_skip k hk s v) ty l₁ l₂ e h,
   fun ty l₁ l₂ k v e hk h =>
     unmarshalMap_skip _ _ _ k v (fun s => responseStep_skip k hk s v) ty l₁ l₂ e h,
   fun ty l₁ l₂ k v e hk h =>
     unmarshalMap_skip _ _ _ k v (fun s => resultStep_skip k hk s v) ty l₁ l₂ e h,
   fun ty l₁ l₂ k v e hk h =>
     unmarshalMap_skip _ _ _ k v (fun s => statusStep_skip k hk s v) ty l₁ l₂ e h,
   fun ty l₁ l₂ k v e hk h =>
     (statuscode_unmarshal_eq _).trans
       (unmarshalMap_skip _ _ _ k v (fun s => statuscodeStep_skip k hk s v) ty l₁ l₂ e
         ((statuscode_unmarshal_eq _).symm.trans h)),
   fun ty l₁ l₂ k v e hk h =>
     unmarshalMap_skip _ _ _ k v (fun s => obligationStep_skip k hk s v) ty l₁ l₂ e h,
   fun ty l₁ l₂ k v e hk h =>
     unmarshalMap_skip _ _ _ k v (fun s => attributeAssignmentStep_skip k hk s v) ty l₁ l₂ e h⟩

/-- Closed instance of c4_unknown_keys_skipped: an extra pair under the
unknown key extra in an Attribute map changes nothing. -/
theorem c4_unknown_keys_skipped_witness :
    pep_attribute_unmarshal
      (Hessian.map (some PEP_ATTRIBUTE_CLASSNAME)
        ((Hessian.string "extra", Hessian.integer 7)
          :: [(Hessian.string PEP_ATTRIBUTE_ID, Hessian.string "x"),
              (Hessian.string PEP_ATTRIBUTE_VALUES, Hessian.list [])]))
      = some { id := some "x", datatype := none, issuer := none, values := [] } :=
  c4_unknown_keys_skipped.1 (some PEP_ATTRIBUTE_CLASSNAME) []
    [(Hessian.string PEP_ATTRIBUTE_ID, Hessian.string "x"),
     (Hessian.string PEP_ATTRIBUTE_VALUES, Hessian.list [])]
    "extra" (Hessian.integer 7)
    { id := some "x", datatype := none, issuer := none, values := [] }
    (by decide) rfl

/-- Closed instance of c3_request_roundtrip: a request with one subject
holding one attribute round-trips. -/
theorem c3_request_roundtrip_witness :
    pep_request_unmarshal
      (Hessian.map (some PEP_REQUEST_CLASSNAME)
        [(Hessian.string PEP_REQUEST_SUBJECTS,
          Hessian.list
            [Hessian.map (some PEP_SUBJECT_CLASSNAME)
              [(Hessian.string PEP_SUBJECT_ATTRIBUTES,
                Hessian.list
                  [Hessian.map (some PEP_ATTRIBUTE_CLASSNAME)
                    [(Hessian.string PEP_ATTRIBUTE_ID, Hessian.string "x"),
                     (Hessian.string PEP_ATTRIBUTE_VALUES, Hessian.list [])]])]]),
         (Hessian.string PEP_REQUEST_RESOURCES, Hessian.list []),
         (Hessian.string PEP_REQUEST_ACTION, Hessian.null),
         (Hessian.string PEP_REQUEST_ENVIRONMENT, Hessian.null)])
      = some { subjects :=
                 [{ category := none,
                    attributes := [{ id := some "x", datatype := none, issuer := none,
                                     values := [] }] }],
               resources := [], action := none, environment := none } :=
  c3_request_roundtrip
    { subjects :=
        [{ category := none,
           attributes := [{ id := some "x", datatype := none, issuer := none, values := [] }] }],
      resources := [], action := none, environment := none } _ rfl

/-- C1 fails on the code: marshalling an attribute whose datatype is
unset omits the dataType key from the map entirely, instead of binding
it to a hessian null. -/
theorem c1_counterexample :
    pep_attribute_marshal { id := some "x", datatype := none, issuer := none, values := [] } =
      some (Hessian.map (some PEP_ATTRIBUTE_CLASSNAME)
        [(Hessian.string PEP_ATTRIBUTE_ID, Hessian.string "x"),
         (Hessian.string PEP_ATTRIBUTE_VALUES, Hessian.list [])]) ∧
    mapHasKey (Hessian.map (some PEP_ATTRIBUTE_CLASSNAME)
        [(Hessian.string PEP_ATTRIBUTE_ID, Hessian.string "x"),
         (Hessian.string PEP_ATTRIBUTE_VALUES, Hessian.list [])]) PEP_ATTRIBUTE_DATATYPE
      = false :=
  ⟨rfl, rfl⟩

/-- C1 amended. For every model entity with an unset optional scalar
field (Attribute datatype, Attribute issuer, Subject category, Resource
content), marshalling omits the fixed key of that field from the map
entirely: no pair under that key, rather than a pair bound to a hessian
null. -/
theorem c1_amended_optional_scalars_omitted :
    (∀ (a : PepAttribute) (h : Hessian), pep_attribute_marshal a = some h →
       a.datatype = none → mapHasKey h PEP_ATTRIBUTE_DATATYPE = false) ∧
    (∀ (a : PepAttribute) (h : Hessian), pep_attribute_marshal a = some h →
       a.issuer = none → mapHasKey h PEP_ATTRIBUTE_ISSUER = false) ∧
    (∀ (s : PepSubject) (h : Hessian), pep_subject_marshal s = some h →
       s.category = none → mapHasKey h PEP_SUBJECT_CATEGORY = false) ∧
    (∀ (r : PepResource) (h : Hessian), pep_resource_marshal r = some h →
       r.content = none → mapHasKey h PEP_RESOURCE_CONTENT = false) := by
  refine ⟨?_, ?_, ?_, ?_⟩
  · rintro ⟨ido, dto, iso, vs⟩ h hm hd
    simp only at hd
    subst hd
    cases ido with
    | none => simp [pep_attribute_marshal] at hm
    | some i =>
      cases iso <;>
        (simp only [pep_attribute_marshal, Option.some.injEq] at hm; subst hm;
         simp [mapHasKey, PEP_ATTRIBUTE_ID, PEP_ATTRIBUTE_DATATYPE, PEP_ATTRIBUTE_ISSUER,
           PEP_ATTRIBUTE_VALUES])
  · rintro ⟨ido, dto, iso, vs⟩ h hm hi
    simp only at hi
    subst hi
    cases ido with
    | none => simp [pep_attribute_marshal] at hm
    | some i =>
      cases dto <;>
        (simp only [pep_attribute_marshal, Option.some.injEq] at hm; subst hm;
         simp [mapHasKey, PEP_ATTRIBUTE_ID, PEP_ATTRIBUTE_DATATYPE, PEP_ATTRIBUTE_ISSUER,
           PEP_ATTRIBUTE_VALUES])
  · rintro ⟨cato, attrs⟩ h hm hc
    simp only at hc
    subst hc
    simp only [pep_subject_marshal] at hm
    cases hml : marshalList pep_attribute_marshal attrs with
    | none => rw [hml] at hm; exact absurd hm (by simp)
    | some hattrs =>
      rw [hml] at hm
      simp only [Option.some.injEq] at hm
      subst hm
      simp [mapHasKey, PEP_SUBJECT_CATEGORY, PEP_SUBJECT_ATTRIBUTES]
  · rintro ⟨conto, attrs⟩ h hm hc
    simp only at hc
    subst hc
    simp only [pep_resource_marshal] at hm
    cases hml : marshalList pep_attribute_marshal attrs with
    | none => rw [hml] at hm; exact absurd hm (by simp)
    | some hattrs =>
      rw [hml] at hm
      simp only [Option.some.injEq] at hm
      subst hm
      simp [mapHasKey, PEP_RESOURCE_CONTENT, PEP_RESOURCE_ATTRIBUTES]

/-- Closed instance of c1_amended_optional_scalars_omitted. -/
theorem c1_amended_witness :
    mapHasKey (Hessian.map (some PEP_ATTRIBUTE_CLASSNAME)
        [(Hessian.string PEP_ATTRIBUTE_ID, Hessian.string "y"),
         (Hessian.string PEP_ATTRIBUTE_VALUES, Hessian.list [])]) PEP_ATTRIBUTE_DATATYPE
      = false :=
  c1_amended_optional_scalars_omitted.1
    { id := some "y", datatype := none, issuer := none, values := [] } _ rfl rfl

/-- C2 fails on the code (a code bug): for the code key of a Status
map, pep_status_unmarshal tests the hessian type of the enclosing
status map instead of the value, so a hessian null value is always
handed to pep_statuscode_unmarshal and the decode fails, although the
own comment of the source says the key can be null and the parallel
subcode handling of pep_statuscode_unmarshal accepts null. -/
theorem c2_status_code_null_rejected :
    pep_status_unmarshal
      (Hessian.map (some PEP_STATUS_CLASSNAME)
        [(Hessian.string PEP_STATUS_MESSAGE, Hessian.string "ok"),
         (Hessian.string PEP_STATUS_CODE, Hessian.null)]) = none := by
  simp [pep_status_unmarshal, unmarshalMap, runPairs, statusStep, pep_statuscode_unmarshal,
    PEP_STATUS_CLASSNAME, PEP_STATUS_MESSAGE, PEP_STATUS_CODE]

/-- C6. Marshalling a Request with zero subjects and zero resources and
no action or environment succeeds, still emits the subjects and
resources keys bound to empty hessian lists, and emits the unset action
and environment as hessian null values under their keys. -/
theorem c6_empty_request_marshal :
    pep_request_marshal { subjects := [], resources := [], action := none, environment := none } =
      some (Hessian.map (some PEP_REQUEST_CLASSNAME)
        [(Hessian.string PEP_REQUEST_SUBJECTS, Hessian.list []),
         (Hessian.string PEP_REQUEST_RESOURCES, Hessian.list []),
         (Hessian.string PEP_REQUEST_ACTION, Hessian.null),
         (Hessian.string PEP_REQUEST_ENVIRONMENT, Hessian.null)]) := rfl

/-- C7 fails on the code: pep_obligation_setid frees the previous id
before allocating the copy, so on allocation failure it returns the
error sentinel with the id field cleared, a partial mutation. -/
theorem c7_counterexample :
    (pep_obligation_setid false
        (some { id := some "a", fulfillon := 0, assignments := [] }) (some "b")).1
      = PEP_MODEL_ERROR ∧
    (pep_obligation_setid false
        (some { id := some "a", fulfillon := 0, assignments := [] }) (some "b")).2
      ≠ some { id := some "a", fulfillon := 0, assignments := [] } := by
  decide

/-- C7 amended. Failing model primitives leave the obligation unchanged
except for one case: pep_obligation_setfulfillon and the null-argument
failures of pep_obligation_setid and
pep_obligation_addattributeassignment never mutate the target, while a
setid allocation failure leaves every field unchanged except the id,
which has been freed and is left unset. -/
theorem c7_amended_no_partial_mutation (alloc : Bool) (obl : PepObligation) (v : Int)
    (idStr : String) (opta : Option PepAttributeAssignment) :
    ((pep_obligation_setfulfillon (some obl) v).1 = PEP_MODEL_ERROR →
       (pep_obligation_setfulfillon (some obl) v).2 = some obl) ∧
    ((pep_obligation_addattributeassignment (some obl) opta).1 = PEP_MODEL_ERROR →
       (pep_obligation_addattributeassignment (some obl) opta).2 = some obl) ∧
    (pep_obligation_setid alloc (some obl) none = (PEP_MODEL_ERROR, some obl)) ∧
    (pep_obligation_setid false (some obl) (some idStr)
       = (PEP_MODEL_ERROR, some { obl with id := none })) := by
  refine ⟨?_, ?_, ?_, ?_⟩
  · by_cases hv : v = PEP_FULFILLON_DENY ∨ v = PEP_FULFILLON_PERMIT <;>
      simp [pep_obligation_setfulfillon, hv, PEP_MODEL_OK, PEP_MODEL_ERROR]
  · cases opta <;>
      simp [pep_obligation_addattributeassignment, PEP_MODEL_OK, PEP_MODEL_ERROR]
  · rfl
  · rfl

/-- Closed instance of c7_amended_no_partial_mutation. -/
theorem c7_amended_witness :
    (pep_obligation_setfulfillon
        (some { id := some "a", fulfillon := 0, assignments := [] }) 7).2
      = some { id := some "a", fulfillon := 0, assignments := [] } ∧
    (pep_obligation_addattributeassignment
        (some { id := some "a", fulfillon := 0, assignments := [] }) none).2
      = some { id := some "a", fulfillon := 0, assignments := [] } ∧
    pep_obligation_setid true
        (some { id := some "a", fulfillon := 0, assignments := [] }) none
      = (PEP_MODEL_ERROR, some { id := some "a", fulfillon := 0, assignments := [] }) ∧
    pep_obligation_setid false
        (some { id := some "a", fulfillon := 0, assignments := [] }) (some "b")
      = (PEP_MODEL_ERROR, some { id := none, fulfillon := 0, assignments := [] }) :=
  ⟨(c7_amended_no_partial_mutation true { id := some "a", fulfillon := 0, assignments := [] }
      7 "b" none).1 (by decide),
   (c7_amended_no_partial_mutation true { id := some "a", fulfillon := 0, assignments := [] }
      7 "b" none).2.1 (by decide),
   (c7_amended_no_partial_mutation true { id := some "a", fulfillon := 0, assignments := [] }
      7 "b" none).2.2.1,
   (c7_amended_no_partial_mutation true { id := some "a", fulfillon := 0, assignments := [] }
      7 "b" none).2.2.2⟩

/-- C8. pep_obligation_setfulfillon succeeds and sets fulfillon to v
exactly when v is Deny (0) or Permit (1); for any other integer it
returns the error sentinel and leaves the field at its previous value. -/
theorem c8_setfulfillon_validates (obl : PepObligation) (v : Int) :
    ((v = PEP_FULFILLON_DENY ∨ v = PEP_FULFILLON_PERMIT) →
       pep_obligation_setfulfillon (some obl) v
         = (PEP_MODEL_OK, some { obl with fulfillon := v })) ∧
    (¬(v = PEP_FULFILLON_DENY ∨ v = PEP_FULFILLON_PERMIT) →
       pep_obligation_setfulfillon (some obl) v = (PEP_MODEL_ERROR, some obl)) := by
  constructor <;> intro hv <;> simp [pep_obligation_setfulfillon, hv]

/-- Closed instance of c8_setfulfillon_validates at Permit and at 5. -/
theorem c8_setfulfillon_witness :
    pep_obligation_setfulfillon (some { id := some "o", fulfillon := 0, assignments := [] }) 1
      = (PEP_MODEL_OK, some { id := some "o", fulfillon := 1, assignments := [] }) ∧
    pep_obligation_setfulfillon (some { id := some "o", fulfillon := 0, assignments := [] }) 5
      = (PEP_MODEL_ERROR, some { id := some "o", fulfillon := 0, assignments := [] }) :=
  ⟨(c8_setfulfillon_validates { id := some "o", fulfillon := 0, assignments := [] } 1).1
     (by decide),
   (c8_setfulfillon_validates { id := some "o", fulfillon := 0, assignments := [] } 5).2
     (by decide)⟩

/-- C9. For a non-empty FQAN list the CLI subject helper returns a
Subject holding the voms-primary-fqan attribute whose single value is
the first FQAN, then the voms-fqan attribute with all the FQANs in list
order; a null or empty list yields no Subject, and merging that absent
Subject leaves the destination unchanged. -/
theorem c9_voms_fqans_subject (first : String) (rest : List String) (toSubject : PepSubject) :
    create_xacml_subject_voms_fqans (some (first :: rest)) =
      some { category := none,
             attributes :=
               [{ id := some XACML_AUTHZINTEROP_SUBJECT_VOMS_PRIMARY_FQAN,
                  datatype := some XACML_DATATYPE_STRING, issuer := none,
                  values := [first] },
                { id := some XACML_AUTHZINTEROP_SUBJECT_VOMS_FQAN,
                  datatype := some XACML_DATATYPE_STRING, issuer := none,
                  values := first :: rest }] } ∧
    create_xacml_subject_voms_fqans (some []) = none ∧
    create_xacml_subject_voms_fqans none = none ∧
    merge_xacml_subject_attrs_into (create_xacml_subject_voms_fqans (some [])) (some toSubject)
      = (0, some toSubject) :=
  ⟨rfl, rfl, rfl, rfl⟩

/-- C10. A successfully created obligation starts with fulfillon Deny,
an empty assignments list, and an id equal to the argument, unset when
the argument is null. -/
theorem c10_obligation_create_defaults (id : Option String) :
    pep_obligation_create id =
      { id := id, fulfillon := PEP_FULFILLON_DENY, assignments := [] } := rfl
